import Mathlib

/-!
# Verification of the budget-planner web application core

A shallow embedding of the budget/aggregation core of the application:
budget creation and update (routes/budget/budgets.new.tsx and
routes/budget/budgets.tsx), the reporting arithmetic (dashboard and
analytics loaders), category deletion (routes/categories.tsx),
ownership-checked mutations (transaction edit action, incomes action),
and the credential service (app/lib/auth.server.ts and its alternate
revision, plus the Google OAuth signup path).

Monetary values and parsed form numbers are modelled as rationals; a
JavaScript number that may be NaN (the result of parseFloat on a
non-numeric string) is modelled as an Option on the rationals, with
none playing the role of NaN.  Database tables are lists of rows;
Prisma calls that can throw (create on a unique-constraint violation,
update on a missing row) return Except values, where an error value
models the exception escaping to the caller.
-/

namespace BudgetPlanner

/-- A parsed JavaScript number: none models NaN (parseFloat of a missing
or non-numeric form field). -/
abbrev JNum := Option ℚ

/-- Database-level failures thrown by the Prisma client: a unique
constraint violation (P2002), an update/delete on a missing record
(P2025), or invalid data for a column (for instance NaN for an Int). -/
inductive DbError where
  | uniqueViolation
  | recordNotFound
  | invalidData
  deriving DecidableEq

/-- The observable outcome of a route action: a field-keyed errors
object, a success message, a page-level error message, a redirect, an
exception escaping to the caller, or a created session. -/
inductive Outcome where
  | fieldErrors (errs : List (String × String))
  | successMsg (m : String)
  | errorMsg (m : String)
  | redirectTo (p : String)
  | thrown (e : DbError)
  | sessionCreated (userId : Nat)
  deriving DecidableEq

/-! ## Budget rows and the two budget actions -/

/-- A row of the Budget table (final schema revision): id, owner,
month, year and the stored absolute ceiling.  The amount is a JNum
because the percentage branch can store the product of a NaN income
with a percentage. -/
structure Budget where
  id : Nat
  userId : Nat
  month : Int
  year : Int
  amount : JNum
  deriving DecidableEq

/-- The parsed form data consumed by the budget actions.  budgetId is
none when the hidden budgetId input is empty (the create path);
month/year are none when parseInt yields NaN. -/
structure BudgetForm where
  intent : String
  budgetType : String
  amount : JNum
  percentage : JNum
  totalIncome : JNum
  month : Option Int
  year : Option Int
  budgetId : Option Nat
  deriving DecidableEq

/-- prisma.budget.findUnique on the composite key (userId, month, year). -/
def budget_findUnique (db : List Budget) (userId : Nat) (month year : Int) :
    Option Budget :=
  db.find? (fun b => b.userId == userId && b.month == month && b.year == year)

/-- prisma.budget.create: inserts a row, or throws P2002 when the
(userId, month, year) uniqueness constraint
Budget_userId_month_year_key is violated. -/
def budget_create (db : List Budget) (newId userId : Nat) (month year : Int)
    (amount : JNum) : Except DbError (List Budget) :=
  match budget_findUnique db userId month year with
  | some _ => Except.error DbError.uniqueViolation
  | none => Except.ok (db ++ [⟨newId, userId, month, year, amount⟩])

/-- prisma.budget.update with where id and data amount: replaces the
amount of the row with that id, or throws P2025 when no row has it.
Note the source selects by id alone, with no userId condition. -/
def budget_update (db : List Budget) (id : Nat) (amount : JNum) :
    Except DbError (List Budget) :=
  if db.any (fun b => b.id == id) then
    Except.ok (db.map (fun b => if b.id == id then { b with amount := amount } else b))
  else Except.error DbError.recordNotFound

/-- The amount/percentage validation block shared verbatim between the
budgets.new.tsx action and the save-budget intent of budgets.tsx:
returns the accumulated field errors and the computed finalAmount
(initialised to 0).  In the percentage branch the income comparison
income <= 0 is false when income is NaN, in which case the stored
finalAmount is NaN times the percentage, i.e. NaN. -/
def budgetFormValidate (f : BudgetForm) : List (String × String) × JNum :=
  if f.budgetType = "amount" then
    match f.amount with
    | none => ([("amount", "Amount must be a positive number")], some 0)
    | some a =>
        if a ≤ 0 then ([("amount", "Amount must be a positive number")], some 0)
        else ([], some a)
  else if f.budgetType = "percentage" then
    match f.percentage with
    | none => ([("percentage", "Percentage must be between 1 and 100")], some 0)
    | some p =>
        if p ≤ 0 ∨ 100 < p then
          ([("percentage", "Percentage must be between 1 and 100")], some 0)
        else
          match f.totalIncome with
          | none => ([], none)
          | some inc =>
              if inc ≤ 0 then
                ([("percentage",
                   "You need to add income before setting a percentage-based budget")],
                 some 0)
              else ([], some (inc * p / 100))
  else ([], some 0)

/-- The full validation of the budgets.new.tsx action: the shared
amount/percentage block, an explicit budgetType error when neither
branch was taken, and the month/year checks. -/
def budgetsNew_validate (f : BudgetForm) : List (String × String) × JNum :=
  ((budgetFormValidate f).1 ++
     (if f.budgetType ≠ "amount" ∧ f.budgetType ≠ "percentage" then
        [("budgetType", "Please select a budget type")]
      else []) ++
     (match f.month with
      | none => [("month", "Invalid month")]
      | some m => if m < 1 ∨ 12 < m then [("month", "Invalid month")] else []) ++
     (match f.year with
      | none => [("year", "Invalid year")]
      | some _ => []),
   (budgetFormValidate f).2)

/-- The action of routes/budget/budgets.new.tsx: validate, return the
errors object if any, otherwise look up an existing budget for the
(user, month, year) and surface a conflict field error, otherwise
create the row and redirect.  The final catch-all arm is unreachable
because empty errors force month and year to be present. -/
def budgetsNew_action (db : List Budget) (newId userId : Nat) (f : BudgetForm) :
    List Budget × Outcome :=
  if (budgetsNew_validate f).1 ≠ [] then
    (db, Outcome.fieldErrors (budgetsNew_validate f).1)
  else
    match f.month, f.year with
    | some m, some y =>
        match budget_findUnique db userId m y with
        | some _ =>
            (db, Outcome.fieldErrors
              [("amount",
                "Budget already exists for this month. Please edit the existing budget instead.")])
        | none =>
            match budget_create db newId userId m y (budgetsNew_validate f).2 with
            | Except.ok db2 => (db2, Outcome.redirectTo "/budgets")
            | Except.error e => (db, Outcome.thrown e)
    | _, _ => (db, Outcome.thrown DbError.invalidData)

/-- The update branch of the save-budget intent: prisma.budget.update
on the supplied budgetId (ok yields the success message, a thrown
Prisma error escapes). -/
def saveBudgetUpdate (db : List Budget) (bid : Nat) (amount : JNum) :
    List Budget × Outcome :=
  match budget_update db bid amount with
  | Except.ok db2 => (db2, Outcome.successMsg "Budget updated successfully")
  | Except.error e => (db, Outcome.thrown e)

/-- The create branch of the save-budget intent: prisma.budget.create
on the parsed month and year, with no prior existing-budget lookup; a
thrown Prisma error (in particular the uniqueness violation for a
duplicate month) escapes. -/
def saveBudgetCreate (db : List Budget) (newId userId : Nat) (f : BudgetForm)
    (amount : JNum) : List Budget × Outcome :=
  match f.month, f.year with
  | some m, some y =>
      match budget_create db newId userId m y amount with
      | Except.ok db2 => (db2, Outcome.successMsg "Budget created successfully")
      | Except.error e => (db, Outcome.thrown e)
  | _, _ => (db, Outcome.thrown DbError.invalidData)

/-- The save-budget intent of the unified routes/budget/budgets.tsx
action: validate the shared block, update by budgetId when one is
supplied, otherwise create directly. -/
def budgets_action (db : List Budget) (newId userId : Nat) (f : BudgetForm) :
    List Budget × Outcome :=
  if f.intent ≠ "save-budget" then (db, Outcome.errorMsg "Invalid action")
  else if (budgetFormValidate f).1 ≠ [] then
    (db, Outcome.fieldErrors (budgetFormValidate f).1)
  else
    match f.budgetId with
    | some bid => saveBudgetUpdate db bid (budgetFormValidate f).2
    | none => saveBudgetCreate db newId userId f (budgetFormValidate f).2

/-! ## Reporting arithmetic

Pure functions lifted verbatim from the loader expressions: the reduce
over amounts with initial value 0, the budget utilization percentage,
the status classification, the savings rate and the month-over-month
expense change of the analytics loader. -/

/-- transactions.reduce with (sum, tx) mapsto sum + tx.amount and
initial value 0, as used by every loader for both expense and income
sums. -/
def sumAmounts (l : List ℚ) : ℚ := l.foldl (fun s a => s + a) 0

/-- budgets.tsx loader: percentage = budgetAmount > 0 ?
(totalExpenses / budgetAmount) * 100 : 0 (identical in the dashboard
loader as budgetPercentage). -/
def budgetPercentage (budgetAmount totalExpenses : ℚ) : ℚ :=
  if 0 < budgetAmount then totalExpenses / budgetAmount * 100 else 0

/-- The three budget states rendered by the progress badge. -/
inductive BudgetStatus where
  | onTrack
  | warning
  | overBudget
  deriving DecidableEq

/-- The badge chosen by the page components: isOverBudget is
percentage > 100, isWarning is percentage > 80 and percentage <= 100,
anything else renders the on-track badge. -/
def classifyBudget (percentage : ℚ) : BudgetStatus :=
  if 100 < percentage then BudgetStatus.overBudget
  else if 80 < percentage ∧ percentage ≤ 100 then BudgetStatus.warning
  else BudgetStatus.onTrack

/-- Analytics loader: savingsRate = totalIncome > 0 ?
((totalIncome - totalExpenses) / totalIncome) * 100 : 0. -/
def savingsRate (totalIncome totalExpenses : ℚ) : ℚ :=
  if 0 < totalIncome then (totalIncome - totalExpenses) / totalIncome * 100 else 0

/-- Analytics loader: expenseChange = lastMonthExpenses > 0 ?
((currentMonthExpenses - lastMonthExpenses) / lastMonthExpenses) * 100 : 0. -/
def expenseChange (currentMonthExpenses lastMonthExpenses : ℚ) : ℚ :=
  if 0 < lastMonthExpenses then
    (currentMonthExpenses - lastMonthExpenses) / lastMonthExpenses * 100
  else 0

/-! ## Category deletion (routes/categories.tsx)

The categories page works over the first schema revision, in which
Transaction and Budget carry a categoryId foreign key, and deletion is
guarded by the dependent counts the loader selects. -/

/-- A row of the Category table. -/
structure Category where
  id : Nat
  userId : Nat
  name : String
  color : String
  icon : String
  deriving DecidableEq

/-- A transaction as far as the category page needs it: its id, owner
and categoryId foreign key. -/
structure TxnRef where
  id : Nat
  userId : Nat
  categoryId : Nat
  deriving DecidableEq

/-- A budget as far as the category page needs it: its id, owner and
categoryId foreign key. -/
structure BudgetRef where
  id : Nat
  userId : Nat
  categoryId : Nat
  deriving DecidableEq

/-- The tables visible to the categories route. -/
structure CatDb where
  categories : List Category
  transactions : List TxnRef
  budgets : List BudgetRef
  deriving DecidableEq

/-- The count of transactions referencing a category, as selected by
prisma with count on the transactions relation. -/
def txnCountFor (db : CatDb) (categoryId : Nat) : Nat :=
  (db.transactions.filter (fun t => t.categoryId == categoryId)).length

/-- The count of budgets referencing a category. -/
def budgetCountFor (db : CatDb) (categoryId : Nat) : Nat :=
  (db.budgets.filter (fun b => b.categoryId == categoryId)).length

/-- The action of routes/categories.tsx: on a delete intent with a
category id, find the category owned by the requesting user (generic
not-found otherwise), refuse while any transaction or budget
references it, and only then delete the row. -/
def categories_action (db : CatDb) (userId : Nat) (intent : String)
    (categoryId : Option Nat) : CatDb × Outcome :=
  match categoryId with
  | some cid =>
      if intent = "delete" then
        match db.categories.find? (fun c => c.id == cid && c.userId == userId) with
        | none => (db, Outcome.errorMsg "Category not found")
        | some _ =>
            if 0 < txnCountFor db cid ∨ 0 < budgetCountFor db cid then
              (db, Outcome.errorMsg "Cannot delete category with existing transactions or budgets")
            else
              ({ db with categories := db.categories.filter (fun c => !(c.id == cid)) },
               Outcome.successMsg "Category deleted successfully")
      else (db, Outcome.errorMsg "Invalid action")
  | none => (db, Outcome.errorMsg "Invalid action")

/-! ## Ownership-checked mutations (transaction edit, income delete) -/

/-- A row of the Transaction table in the final schema revision:
category is a plain string, frequency is null unless recurring. -/
structure Txn where
  id : Nat
  userId : Nat
  amount : ℚ
  category : String
  description : Option String
  date : Int
  isRecurring : Bool
  frequency : Option String
  deriving DecidableEq

/-- The parsed form data of the transaction edit action. -/
structure TxnForm where
  intent : String
  amount : JNum
  category : Option String
  description : Option String
  date : Option Int
  isRecurring : Bool
  frequency : Option String
  deriving DecidableEq

/-- The default category presets of app/lib/constants.ts
(name, color, icon). -/
def DEFAULT_CATEGORIES : List (String × String × String) :=
  [("Food & Dining", "#ef4444", "Utensils"),
   ("Housing", "#3b82f6", "Home"),
   ("Transportation", "#f59e0b", "Car"),
   ("Entertainment", "#a855f7", "Film"),
   ("Shopping", "#ec4899", "ShoppingBag"),
   ("Health", "#06b6d4", "Heart"),
   ("Travel", "#f97316", "Plane"),
   ("Education", "#8b5cf6", "BookOpen"),
   ("Personal Care", "#f43f5e", "User")]

/-- The action of transactions.$id.edit.tsx: ownership is established
by findFirst on id and userId, both a missing and a foreign row
surface as the same generic Transaction-not-found error; delete
removes the row; update validates the fields and then replaces the
row's data. -/
def transactionsIdEdit_action (db : List Txn) (userId id : Nat) (f : TxnForm) :
    List Txn × Outcome :=
  match db.find? (fun t => t.id == id && t.userId == userId) with
  | none => (db, Outcome.errorMsg "Transaction not found")
  | some _ =>
      if f.intent = "delete" then
        (db.filter (fun t => !(t.id == id)), Outcome.redirectTo "/transactions")
      else
        let amountBad :=
          match f.amount with
          | none => true
          | some a => decide (a ≤ 0)
        let categoryBad := f.category.isNone
        let dateBad := f.date.isNone
        let frequencyBad := f.isRecurring && f.frequency.isNone
        if amountBad || categoryBad || dateBad || frequencyBad then
          (db, Outcome.fieldErrors
            ((if amountBad then [("amount", "Amount must be a positive number")] else []) ++
             (if categoryBad then [("category", "Please select a category")] else []) ++
             (if dateBad then [("date", "Please select a date")] else []) ++
             (if frequencyBad then
                [("frequency", "Please select frequency for recurring transaction")]
              else [])))
        else
          match f.amount, f.category, f.date with
          | some a, some c, some d =>
              if DEFAULT_CATEGORIES.any (fun p => p.1 == c) then
                (db.map (fun t =>
                   if t.id == id then
                     { t with amount := a, category := c,
                              description := f.description, date := d,
                              isRecurring := f.isRecurring,
                              frequency := if f.isRecurring then f.frequency else none }
                   else t),
                 Outcome.redirectTo "/transactions")
              else (db, Outcome.fieldErrors [("category", "Invalid category")])
          | _, _, _ => (db, Outcome.errorMsg "unreachable")

/-- A row of the Income table. -/
structure Income where
  id : Nat
  userId : Nat
  amount : ℚ
  source : Option String
  date : Int
  deriving DecidableEq

/-- The action of routes/incomes.tsx: on a delete intent, ownership is
established by findFirst on id and userId, both a missing and a
foreign row surface as the same generic Income-not-found error, and
only an owned row is deleted. -/
def incomes_action (db : List Income) (userId : Nat) (intent : String)
    (incomeId : Option Nat) : List Income × Outcome :=
  match incomeId with
  | some iid =>
      if intent = "delete" then
        match db.find? (fun i => i.id == iid && i.userId == userId) with
        | none => (db, Outcome.errorMsg "Income not found")
        | some _ =>
            (db.filter (fun i => !(i.id == iid)), Outcome.successMsg "Income deleted")
      else (db, Outcome.errorMsg "Invalid action")
  | none => (db, Outcome.errorMsg "Invalid action")

/-! ## Credential service (app/lib/auth.server.ts and variants)

bcrypt is modelled abstractly: hashPassword tags the plaintext, and
bcryptCompare succeeds exactly when the hash is the tag of the
password.  The fixed invalid hash used for the dummy comparison is not
in the image of hashPassword, so the dummy comparison always fails, as
a syntactically invalid bcrypt hash does. -/

/-- A row of the User table. -/
structure UserRec where
  id : Nat
  email : String
  password : String
  deriving DecidableEq

/-- A category row as written by the default-category seeding:
owner plus the (name, color, icon) preset. -/
structure SeedCategory where
  userId : Nat
  name : String
  color : String
  icon : String
  deriving DecidableEq

/-- The tables visible to the credential service. -/
structure AuthDb where
  users : List UserRec
  categories : List SeedCategory
  deriving DecidableEq

/-- Failures of the credential service: the explicit UserExistsError,
or a database failure aborting the seeding transaction. -/
inductive AuthError where
  | userExists
  | dbFailure
  deriving DecidableEq

/-- bcrypt.hash with 10 salt rounds, modelled as an injective tagging
of the plaintext. -/
def hashPassword (password : String) : String :=
  "$2a$10$" ++ password

/-- bcrypt.compare, modelled as recognising exactly the tag produced
by hashPassword. -/
def bcryptCompare (password hash : String) : Bool :=
  hash == hashPassword password

/-- The fixed syntactically invalid hash the login routine compares
against when no user matches the email. -/
def invalidHash : String := "$2a$10$invalid.hash.to.prevent.timing.attack"

/-- The category rows seeded for a fresh user: one per entry of
DEFAULT_CATEGORIES. -/
def seedRows (userId : Nat) : List SeedCategory :=
  DEFAULT_CATEGORIES.map (fun c => ⟨userId, c.1, c.2.1, c.2.2⟩)

/-- createUser of app/lib/auth.server.ts: reject an existing email
with UserExistsError, then run a single prisma transaction that
creates the user row and seeds the full default category set.
seedFails injects a failure of the category createMany inside the
transaction; the interactive transaction then rolls back, so the user
row is not committed either. -/
def createUser (db : AuthDb) (newId : Nat) (email password : String)
    (seedFails : Bool) : AuthDb × Except AuthError Nat :=
  if db.users.any (fun u => u.email == email) then
    (db, Except.error AuthError.userExists)
  else if seedFails then
    (db, Except.error AuthError.dbFailure)
  else
    ({ users := db.users ++ [⟨newId, email, hashPassword password⟩],
       categories := db.categories ++ seedRows newId },
     Except.ok newId)

/-- The alternate createUser revision (src/unnamed/part_006): its
comment reads that categories are now preset and handled on the
frontend, so it creates only the user row and seeds nothing. -/
def createUserNoSeed (db : AuthDb) (newId : Nat) (email password : String) :
    AuthDb × Except AuthError Nat :=
  if db.users.any (fun u => u.email == email) then
    (db, Except.error AuthError.userExists)
  else
    ({ db with users := db.users ++ [⟨newId, email, hashPassword password⟩] },
     Except.ok newId)

/-- verifyLogin of app/lib/auth.server.ts.  The second component is
the trace of bcrypt comparisons performed, each recorded as the
(password, hash) pair: when no user matches the email the routine
still compares against the fixed invalid hash before returning null,
otherwise it compares against the stored hash. -/
def verifyLogin (db : AuthDb) (email password : String) :
    Option (Nat × String) × List (String × String) :=
  match db.users.find? (fun u => u.email == email) with
  | none => (none, [(password, invalidHash)])
  | some u =>
      if bcryptCompare password u.password then
        (some (u.id, u.email), [(password, u.password)])
      else
        (none, [(password, u.password)])

/-- The Google-intent branch of the signup action (src/unnamed/
part_003): with a decoded email, an existing user is simply logged in;
otherwise a user row is created directly through prisma.user.create
with an empty-string password — bypassing createUser, so no categories
are seeded — and a session is created immediately. -/
def signupGoogle_action (db : AuthDb) (newId : Nat) (email : String) :
    AuthDb × Outcome :=
  match db.users.find? (fun u => u.email == email) with
  | some u => (db, Outcome.sessionCreated u.id)
  | none =>
      ({ db with users := db.users ++ [⟨newId, email, ""⟩] },
       Outcome.sessionCreated newId)

/-! ## Claim theorems -/

/-- C4: for every budget ceiling and expense sum, the utilization
percentage equals expenseSum / ceiling * 100 and is 0 when the ceiling
is 0, and the status classification is a pure function of that
percentage: at most 80 is on track, strictly greater than 80 and at
most 100 is warning, strictly greater than 100 is over budget. -/
theorem c4_utilization_and_status (ceiling expenses p : ℚ) (hc : 0 ≤ ceiling) :
    (ceiling = 0 → budgetPercentage ceiling expenses = 0) ∧
    (ceiling ≠ 0 → budgetPercentage ceiling expenses = expenses / ceiling * 100) ∧
    (p ≤ 80 → classifyBudget p = BudgetStatus.onTrack) ∧
    (80 < p → p ≤ 100 → classifyBudget p = BudgetStatus.warning) ∧
    (100 < p → classifyBudget p = BudgetStatus.overBudget) := by
  refine ⟨fun h0 => ?_, fun hne => ?_, fun h80 => ?_, fun hgt hle => ?_, fun hgt => ?_⟩
  · simp [budgetPercentage, h0]
  · have hpos : 0 < ceiling := lt_of_le_of_ne hc (Ne.symm hne)
    simp [budgetPercentage, hpos]
  · have h1 : ¬ (100 < p) := by linarith
    have h2 : ¬ (80 < p ∧ p ≤ 100) := by rintro ⟨a, b⟩; linarith
    simp [classifyBudget, h1, h2]
  · have h1 : ¬ (100 < p) := by linarith
    simp [classifyBudget, h1, hgt, hle]
  · simp [classifyBudget, hgt]

/-- Witness for C4 at ceiling 2, expenses 1, percentage 90. -/
theorem c4_utilization_and_status_witness :
    budgetPercentage 2 1 = 1 / 2 * 100 ∧ classifyBudget 90 = BudgetStatus.warning := by
  have h := c4_utilization_and_status 2 1 90 (by norm_num)
  exact ⟨h.2.1 (by norm_num), h.2.2.2.1 (by norm_num) (by norm_num)⟩

/-- C5: the expense and income sums over an empty result set are 0,
and every zero-denominator percentage (savings rate on zero income,
month-over-month change on a zero previous month, budget utilization
on a zero budget) yields 0. -/
theorem c5_empty_sums_and_zero_denominators (expenses current : ℚ) :
    sumAmounts [] = 0 ∧ savingsRate 0 expenses = 0 ∧
    expenseChange current 0 = 0 ∧ budgetPercentage 0 expenses = 0 := by
  refine ⟨rfl, ?_, ?_, ?_⟩ <;> simp [savingsRate, expenseChange, budgetPercentage]

/-- C9: every login verification performs a bcrypt comparison before
returning invalid; when no user matches the email, a dummy comparison
against the fixed invalid hash is performed and null is returned, with
no early return skipping the comparison. -/
theorem c9_login_dummy_compare (db : AuthDb) (email password : String) :
    (verifyLogin db email password).2 ≠ [] ∧
    (db.users.find? (fun u => u.email == email) = none →
      verifyLogin db email password = (none, [(password, invalidHash)])) := by
  constructor
  · unfold verifyLogin
    cases h : db.users.find? (fun u => u.email == email) with
    | none => simp
    | some u =>
        by_cases hb : bcryptCompare password u.password
        · simp [hb]
        · simp [hb]
  · intro h
    unfold verifyLogin
    rw [h]

/-- Witness for C9 on an empty user table. -/
theorem c9_login_dummy_compare_witness :
    verifyLogin ⟨[], []⟩ "ghost@example.com" "pw" = (none, [("pw", invalidHash)]) :=
  (c9_login_dummy_compare ⟨[], []⟩ "ghost@example.com" "pw").2 (by simp)

/-- C10: a first-time Google OAuth signup creates the User row
directly with an empty-string password, seeds no Category rows for the
new user (createUser and its seeding are bypassed), and immediately
creates a session for the new user. -/
theorem c10_google_oauth_signup (db : AuthDb) (newId : Nat) (email : String)
    (h : db.users.find? (fun u => u.email == email) = none) :
    signupGoogle_action db newId email =
      ({ db with users := db.users ++ [⟨newId, email, ""⟩] },
       Outcome.sessionCreated newId) ∧
    (signupGoogle_action db newId email).1.categories = db.categories := by
  unfold signupGoogle_action
  rw [h]
  exact ⟨rfl, rfl⟩

/-- Witness for C10 on an empty database. -/
theorem c10_google_oauth_signup_witness :
    signupGoogle_action ⟨[], []⟩ 1 "oauth@example.com" =
      (⟨[⟨1, "oauth@example.com", ""⟩], []⟩, Outcome.sessionCreated 1) :=
  (c10_google_oauth_signup ⟨[], []⟩ 1 "oauth@example.com" (by simp)).1

/-- C2 (amended): the createUser of app/lib/auth.server.ts is
transactional: every call either leaves the database unchanged and
reports an error (existing email, or a failure inside the transaction,
which rolls back the user row as well), or commits both the user row
and the full default category set. -/
theorem c2_createUser_transactional (db : AuthDb) (newId : Nat)
    (email password : String) (seedFails : Bool) :
    (∃ e, createUser db newId email password seedFails = (db, Except.error e)) ∨
    createUser db newId email password seedFails =
      ({ users := db.users ++ [⟨newId, email, hashPassword password⟩],
         categories := db.categories ++ seedRows newId }, Except.ok newId) := by
  unfold createUser
  by_cases h1 : db.users.any (fun u => u.email == email)
  · exact Or.inl ⟨AuthError.userExists, by simp [h1]⟩
  · cases seedFails with
    | true => exact Or.inl ⟨AuthError.dbFailure, by simp [h1]⟩
    | false => exact Or.inr (by simp [h1])

/-- Counterexample to C2 as stated: the alternate createUser revision
(src/unnamed/part_006) is also a signup path of the repository, and it
commits a user row while seeding no categories at all, so a state with
a user row and no default categories for that user is reachable. -/
theorem c2_counterexample :
    createUserNoSeed ⟨[], []⟩ 1 "alice@example.com" "pw1" =
      (⟨[⟨1, "alice@example.com", hashPassword "pw1"⟩], []⟩, Except.ok 1) ∧
    (createUserNoSeed ⟨[], []⟩ 1 "alice@example.com" "pw1").1.categories = [] := by
  constructor <;> simp [createUserNoSeed]

/-- Reduction of the categories action on a delete intent. -/
theorem categories_action_delete_eq (db : CatDb) (userId cid : Nat) :
    categories_action db userId "delete" (some cid) =
      match db.categories.find? (fun c => c.id == cid && c.userId == userId) with
      | none => (db, Outcome.errorMsg "Category not found")
      | some _ =>
          if 0 < txnCountFor db cid ∨ 0 < budgetCountFor db cid then
            (db, Outcome.errorMsg "Cannot delete category with existing transactions or budgets")
          else
            ({ db with categories := db.categories.filter (fun c => !(c.id == cid)) },
             Outcome.successMsg "Category deleted successfully") := rfl

/-- C6: deleting a category that still has a dependent transaction or
budget fails with an error and changes nothing; the transaction and
budget tables are never touched by this action; and a category is
removed only when both dependent counts are 0. -/
theorem c6_category_delete_guard (db : CatDb) (userId cid : Nat) :
    ((0 < txnCountFor db cid ∨ 0 < budgetCountFor db cid) →
      (categories_action db userId "delete" (some cid)).1 = db ∧
      ∃ m, (categories_action db userId "delete" (some cid)).2 = Outcome.errorMsg m) ∧
    (categories_action db userId "delete" (some cid)).1.transactions = db.transactions ∧
    (categories_action db userId "delete" (some cid)).1.budgets = db.budgets ∧
    ((categories_action db userId "delete" (some cid)).1.categories ≠ db.categories →
      txnCountFor db cid = 0 ∧ budgetCountFor db cid = 0) := by
  rw [categories_action_delete_eq]
  cases hf : db.categories.find? (fun c => c.id == cid && c.userId == userId) with
  | none =>
      exact ⟨fun _ => ⟨rfl, "Category not found", rfl⟩, rfl, rfl, fun h => absurd rfl h⟩
  | some c =>
      by_cases hd : 0 < txnCountFor db cid ∨ 0 < budgetCountFor db cid
      · rw [if_pos hd]
        exact ⟨fun _ => ⟨rfl, _, rfl⟩, rfl, rfl, fun h => absurd rfl h⟩
      · rw [if_neg hd]
        refine ⟨fun hcon => (hd hcon).elim, rfl, rfl, fun _ => ?_⟩
        push_neg at hd
        omega

/-- Witness for C6: a category with one dependent transaction is not
deleted and the action reports an error. -/
theorem c6_category_delete_guard_witness :
    (categories_action ⟨[⟨7, 1, "Food & Dining", "#ef4444", "Utensils"⟩], [⟨1, 1, 7⟩], []⟩
        1 "delete" (some 7)).1 =
      ⟨[⟨7, 1, "Food & Dining", "#ef4444", "Utensils"⟩], [⟨1, 1, 7⟩], []⟩ ∧
    ∃ m, (categories_action ⟨[⟨7, 1, "Food & Dining", "#ef4444", "Utensils"⟩], [⟨1, 1, 7⟩], []⟩
        1 "delete" (some 7)).2 = Outcome.errorMsg m :=
  (c6_category_delete_guard ⟨[⟨7, 1, "Food & Dining", "#ef4444", "Utensils"⟩],
      [⟨1, 1, 7⟩], []⟩ 1 7).1 (Or.inl (by simp [txnCountFor]))

/-- When the save-budget intent succeeds with an update message and a
budgetId was supplied, the resulting table is the pointwise amount
replacement on the row with that id. -/
theorem saveBudgetUpdate_shape (db db2 : List Budget) (bid : Nat) (a : JNum)
    (h : saveBudgetUpdate db bid a =
      (db2, Outcome.successMsg "Budget updated successfully")) :
    db2 = db.map (fun b => if b.id == bid then { b with amount := a } else b) := by
  unfold saveBudgetUpdate at h
  cases hu : budget_update db bid a with
  | ok db3 =>
      simp only [hu] at h
      rw [Prod.mk.injEq] at h
      unfold budget_update at hu
      split at hu
      · injection hu with hu2
        rw [← h.1]
        exact hu2.symm
      · cases hu
  | error e =>
      simp only [hu] at h
      simp at h

theorem budgets_action_update_shape (db db2 : List Budget) (newId userId bid : Nat)
    (f : BudgetForm) (hbid : f.budgetId = some bid)
    (h : budgets_action db newId userId f =
      (db2, Outcome.successMsg "Budget updated successfully")) :
    db2 = db.map (fun b =>
      if b.id == bid then { b with amount := (budgetFormValidate f).2 } else b) := by
  unfold budgets_action at h
  rw [hbid] at h
  split at h
  · simp at h
  · split at h
    · simp at h
    · exact saveBudgetUpdate_shape db db2 bid (budgetFormValidate f).2 h

/-- C8: a successful budget update through the save-budget intent
replaces only the amount field: ids, owners, months and years are all
unchanged, and every row whose id differs from the updated one is
untouched entirely. -/
theorem c8_update_replaces_only_amount (db db2 : List Budget) (newId userId bid : Nat)
    (f : BudgetForm) (hbid : f.budgetId = some bid)
    (h : budgets_action db newId userId f =
      (db2, Outcome.successMsg "Budget updated successfully")) :
    db2.map (fun b => b.id) = db.map (fun b => b.id) ∧
    db2.map (fun b => b.userId) = db.map (fun b => b.userId) ∧
    db2.map (fun b => b.month) = db.map (fun b => b.month) ∧
    db2.map (fun b => b.year) = db.map (fun b => b.year) ∧
    ∀ b ∈ db, b.id ≠ bid → b ∈ db2 := by
  have hs := budgets_action_update_shape db db2 newId userId bid f hbid h
  subst hs
  refine ⟨?_, ?_, ?_, ?_, ?_⟩
  · rw [List.map_map]
    refine List.map_congr_left (fun b _ => ?_)
    simp only [Function.comp_apply]
    split <;> rfl
  · rw [List.map_map]
    refine List.map_congr_left (fun b _ => ?_)
    simp only [Function.comp_apply]
    split <;> rfl
  · rw [List.map_map]
    refine List.map_congr_left (fun b _ => ?_)
    simp only [Function.comp_apply]
    split <;> rfl
  · rw [List.map_map]
    refine List.map_congr_left (fun b _ => ?_)
    simp only [Function.comp_apply]
    split <;> rfl
  · intro b hb hne
    refine List.mem_map.mpr ⟨b, hb, ?_⟩
    have hfalse : (b.id == bid) = false := by simpa using hne
    simp [hfalse]

/-- Witness for C8: updating budget 5 to amount 50 keeps its id,
owner, month and year. -/
theorem c8_update_replaces_only_amount_witness :
    ([⟨5, 1, 3, 2025, some 50⟩] : List Budget).map (fun b => b.userId) =
      ([⟨5, 1, 3, 2025, some 100⟩] : List Budget).map (fun b => b.userId) ∧
    ([⟨5, 1, 3, 2025, some 50⟩] : List Budget).map (fun b => b.month) =
      ([⟨5, 1, 3, 2025, some 100⟩] : List Budget).map (fun b => b.month) := by
  have h := c8_update_replaces_only_amount [⟨5, 1, 3, 2025, some 100⟩]
    [⟨5, 1, 3, 2025, some 50⟩] 9 1 5
    ⟨"save-budget", "amount", some 50, none, none, some 3, some 2025, some 5⟩
    rfl (by simp [budgets_action, budgetFormValidate, saveBudgetUpdate, budget_update]
            norm_num)
  exact ⟨h.2.1, h.2.2.1⟩

/-- In percentage mode, every invalid input (missing or out-of-range
percentage, or non-positive income) produces exactly one
percentage-keyed error and a zero finalAmount. -/
theorem budgetFormValidate_pct_invalid (f : BudgetForm)
    (hbt : f.budgetType = "percentage")
    (hbad : f.percentage = none ∨
            (∃ p, f.percentage = some p ∧ (p ≤ 0 ∨ 100 < p)) ∨
            f.totalIncome = some 0) :
    ∃ msg, budgetFormValidate f = ([("percentage", msg)], some 0) := by
  unfold budgetFormValidate
  rw [hbt, if_neg (by decide), if_pos rfl]
  rcases hbad with hnone | ⟨p, hp, hrange⟩ | hzero
  · rw [hnone]
    exact ⟨_, rfl⟩
  · simp only [hp]
    rw [if_pos hrange]
    exact ⟨_, rfl⟩
  · cases hpc : f.percentage with
    | none => exact ⟨_, rfl⟩
    | some p =>
        dsimp only
        by_cases hr : p ≤ 0 ∨ 100 < p
        · rw [if_pos hr]
          exact ⟨_, rfl⟩
        · rw [if_neg hr]
          simp only [hzero]
          rw [if_pos le_rfl]
          exact ⟨_, rfl⟩

/-- In percentage mode with a percentage in (0, 100] and a positive
income, validation passes and the finalAmount is income times
percentage over 100. -/
theorem budgetFormValidate_pct_valid (f : BudgetForm) (p inc : ℚ)
    (hbt : f.budgetType = "percentage") (hp : f.percentage = some p)
    (hp0 : 0 < p) (hp100 : p ≤ 100)
    (hinc : f.totalIncome = some inc) (hinc0 : 0 < inc) :
    budgetFormValidate f = ([], some (inc * p / 100)) := by
  unfold budgetFormValidate
  rw [hbt, if_neg (by decide), if_pos rfl]
  simp only [hp]
  rw [if_neg (by push_neg; exact ⟨hp0, hp100⟩)]
  simp only [hinc]
  rw [if_neg (by push_neg; exact hinc0)]

/-- A failed budgets.new validation returns the errors object and
leaves the table unchanged. -/
theorem budgetsNew_action_invalid (db : List Budget) (newId userId : Nat)
    (f : BudgetForm) (hv : (budgetsNew_validate f).1 ≠ []) :
    budgetsNew_action db newId userId f =
      (db, Outcome.fieldErrors (budgetsNew_validate f).1) := by
  unfold budgetsNew_action
  rw [if_pos hv]

/-- A failed save-budget validation returns the errors object and
leaves the table unchanged. -/
theorem budgets_action_invalid (db : List Budget) (newId userId : Nat)
    (f : BudgetForm) (hint : f.intent = "save-budget")
    (hv : (budgetFormValidate f).1 ≠ []) :
    budgets_action db newId userId f =
      (db, Outcome.fieldErrors (budgetFormValidate f).1) := by
  unfold budgets_action
  rw [if_neg (by simp [hint]), if_pos hv]

/-- In percentage mode the budgets.new validation starts with the
percentage error produced by the shared block. -/
theorem budgetsNew_validate_pct_err (f : BudgetForm) (msg : String)
    (hbfv : budgetFormValidate f = ([("percentage", msg)], some 0)) :
    ∃ rest, (budgetsNew_validate f).1 = ("percentage", msg) :: rest := by
  unfold budgetsNew_validate
  rw [hbfv]
  exact ⟨_, rfl⟩

/-- When the shared block passes and month and year are well-formed,
the budgets.new validation passes with the same finalAmount. -/
theorem budgetsNew_validate_pct_ok (f : BudgetForm) (a : JNum) (m y : Int)
    (hbt : f.budgetType = "percentage")
    (hbfv : budgetFormValidate f = ([], a))
    (hm : f.month = some m) (hm1 : 1 ≤ m) (hm12 : m ≤ 12)
    (hy : f.year = some y) :
    budgetsNew_validate f = ([], a) := by
  unfold budgetsNew_validate
  rw [hbfv, hbt, hm, hy]
  dsimp only
  rw [if_neg (by decide), if_neg (by omega)]
  rfl

/-- prisma.budget.create succeeds when no row holds the composite
key. -/
theorem budget_create_of_not_found (db : List Budget) (newId userId : Nat)
    (m y : Int) (a : JNum) (hnf : budget_findUnique db userId m y = none) :
    budget_create db newId userId m y a =
      Except.ok (db ++ [⟨newId, userId, m, y, a⟩]) := by
  unfold budget_create
  rw [hnf]

/-- prisma.budget.create throws the uniqueness violation when a row
already holds the composite key. -/
theorem budget_create_of_found (db : List Budget) (newId userId : Nat)
    (m y : Int) (a : JNum) (b : Budget)
    (hf : budget_findUnique db userId m y = some b) :
    budget_create db newId userId m y a = Except.error DbError.uniqueViolation := by
  unfold budget_create
  rw [hf]

/-- The happy creation path of budgets.new: valid form, no existing
budget — the row is appended and the action redirects. -/
theorem budgetsNew_action_ok (db : List Budget) (newId userId : Nat)
    (f : BudgetForm) (m y : Int) (a : JNum)
    (hv : budgetsNew_validate f = ([], a))
    (hm : f.month = some m) (hy : f.year = some y)
    (hnf : budget_findUnique db userId m y = none) :
    budgetsNew_action db newId userId f =
      (db ++ [⟨newId, userId, m, y, a⟩], Outcome.redirectTo "/budgets") := by
  unfold budgetsNew_action
  rw [hv]
  dsimp only
  rw [if_neg (by simp), hm, hy]
  dsimp only
  rw [hnf]
  dsimp only
  rw [budget_create_of_not_found db newId userId m y a hnf]

/-- The happy creation path of the save-budget intent: valid form, no
budgetId, no existing budget — the row is appended. -/
theorem budgets_action_create_ok (db : List Budget) (newId userId : Nat)
    (f : BudgetForm) (m y : Int) (a : JNum)
    (hint : f.intent = "save-budget")
    (hv : budgetFormValidate f = ([], a)) (hbid : f.budgetId = none)
    (hm : f.month = some m) (hy : f.year = some y)
    (hnf : budget_findUnique db userId m y = none) :
    budgets_action db newId userId f =
      (db ++ [⟨newId, userId, m, y, a⟩],
       Outcome.successMsg "Budget created successfully") := by
  unfold budgets_action
  rw [if_neg (by simp [hint])]
  rw [hv]
  dsimp only
  rw [if_neg (by simp), hbid]
  dsimp only
  unfold saveBudgetCreate
  rw [hm, hy]
  dsimp only
  rw [budget_create_of_not_found db newId userId m y a hnf]

/-- The duplicate creation path of the save-budget intent: valid form,
no budgetId, but a budget already exists — the uniqueness violation
escapes as an exception. -/
theorem budgets_action_create_conflict (db : List Budget) (newId userId : Nat)
    (f : BudgetForm) (m y : Int) (a : JNum) (b : Budget)
    (hint : f.intent = "save-budget")
    (hv : budgetFormValidate f = ([], a)) (hbid : f.budgetId = none)
    (hm : f.month = some m) (hy : f.year = some y)
    (hf : budget_findUnique db userId m y = some b) :
    budgets_action db newId userId f = (db, Outcome.thrown DbError.uniqueViolation) := by
  unfold budgets_action
  rw [if_neg (by simp [hint])]
  rw [hv]
  dsimp only
  rw [if_neg (by simp), hbid]
  dsimp only
  unfold saveBudgetCreate
  rw [hm, hy]
  dsimp only
  rw [budget_create_of_found db newId userId m y a b hf]

/-- The duplicate creation path of budgets.new: valid form, but a
budget already exists — the conflict is caught by the pre-check and
surfaced as a field error, with no row created. -/
theorem budgetsNew_action_conflict (db : List Budget) (newId userId : Nat)
    (f : BudgetForm) (m y : Int) (a : JNum) (b : Budget)
    (hv : budgetsNew_validate f = ([], a))
    (hm : f.month = some m) (hy : f.year = some y)
    (hf : budget_findUnique db userId m y = some b) :
    budgetsNew_action db newId userId f =
      (db, Outcome.fieldErrors
        [("amount",
          "Budget already exists for this month. Please edit the existing budget instead.")]) := by
  unfold budgetsNew_action
  rw [hv]
  dsimp only
  rw [if_neg (by simp), hm, hy]
  dsimp only
  rw [hf]

/-- C3: for every percentage-mode budget request, validation fails
with a percentage-keyed field error and no row is created when the
percentage is missing or outside (0, 100] or when the supplied monthly
income total is 0, on both the budgets.new path and the save-budget
path; otherwise the stored ceiling is income times percentage over
100. -/
theorem c3_percentage_mode (db : List Budget) (newId userId : Nat) (f : BudgetForm)
    (hbt : f.budgetType = "percentage") (hint : f.intent = "save-budget") :
    ((f.percentage = none ∨
      (∃ p, f.percentage = some p ∧ (p ≤ 0 ∨ 100 < p)) ∨
      f.totalIncome = some 0) →
      (budgetsNew_action db newId userId f).1 = db ∧
      (∃ msg rest, (budgetsNew_action db newId userId f).2 =
        Outcome.fieldErrors (("percentage", msg) :: rest)) ∧
      (budgets_action db newId userId f).1 = db ∧
      (∃ msg, (budgets_action db newId userId f).2 =
        Outcome.fieldErrors [("percentage", msg)])) ∧
    (∀ p inc m y, f.percentage = some p → 0 < p → p ≤ 100 →
      f.totalIncome = some inc → 0 < inc →
      f.month = some m → 1 ≤ m → m ≤ 12 → f.year = some y →
      f.budgetId = none → budget_findUnique db userId m y = none →
      budgetsNew_action db newId userId f =
        (db ++ [⟨newId, userId, m, y, some (inc * p / 100)⟩],
         Outcome.redirectTo "/budgets") ∧
      budgets_action db newId userId f =
        (db ++ [⟨newId, userId, m, y, some (inc * p / 100)⟩],
         Outcome.successMsg "Budget created successfully")) := by
  constructor
  · intro hbad
    obtain ⟨msg, hbfv⟩ := budgetFormValidate_pct_invalid f hbt hbad
    obtain ⟨rest, hnv⟩ := budgetsNew_validate_pct_err f msg hbfv
    have hne : (budgetsNew_validate f).1 ≠ [] := by rw [hnv]; simp
    have h1 := budgetsNew_action_invalid db newId userId f hne
    have hne2 : (budgetFormValidate f).1 ≠ [] := by rw [hbfv]; simp
    have h2 := budgets_action_invalid db newId userId f hint hne2
    refine ⟨by rw [h1], ⟨msg, rest, by rw [h1, hnv]⟩, by rw [h2],
            ⟨msg, by rw [h2, hbfv]⟩⟩
  · intro p inc m y hp hp0 hp100 hinc hinc0 hm hm1 hm12 hy hbid hnf
    have hbfv := budgetFormValidate_pct_valid f p inc hbt hp hp0 hp100 hinc hinc0
    have hnv := budgetsNew_validate_pct_ok f (some (inc * p / 100)) m y hbt hbfv hm hm1 hm12 hy
    exact ⟨budgetsNew_action_ok db newId userId f m y _ hnv hm hy hnf,
           budgets_action_create_ok db newId userId f m y _ hint hbfv hbid hm hy hnf⟩

/-- Witness for C3: income 2000 with percentage 25 derives a stored
ceiling of exactly 500 on both creation paths. -/
theorem c3_percentage_mode_witness :
    budgetsNew_action [] 1 7
        ⟨"save-budget", "percentage", none, some 25, some 2000, some 3, some 2025, none⟩ =
      ([⟨1, 7, 3, 2025, some 500⟩], Outcome.redirectTo "/budgets") ∧
    budgets_action [] 1 7
        ⟨"save-budget", "percentage", none, some 25, some 2000, some 3, some 2025, none⟩ =
      ([⟨1, 7, 3, 2025, some 500⟩], Outcome.successMsg "Budget created successfully") := by
  have h := (c3_percentage_mode [] 1 7
      ⟨"save-budget", "percentage", none, some 25, some 2000, some 3, some 2025, none⟩
      rfl rfl).2 25 2000 3 2025 rfl (by norm_num) (by norm_num) rfl (by norm_num)
      rfl (by norm_num) (by norm_num) rfl rfl rfl
  have e : (2000 : ℚ) * 25 / 100 = 500 := by norm_num
  rw [e] at h
  exact h

/-- C1 (amended): with a budget already present for (user, month,
year) and the creation path engaged (no budgetId), neither action adds
a row, so exactly the one existing row remains; the budgets.new path
surfaces the duplicate as a recoverable, user-visible conflict field
error, but the save-budget intent of the unified budgets action
performs no pre-check, so the duplicate surfaces as the thrown
uniqueness-constraint exception escaping to the caller. -/
theorem c1_duplicate_budget_creation (db : List Budget) (newId userId : Nat)
    (f : BudgetForm) (m y : Int) (b : Budget)
    (hm : f.month = some m) (hy : f.year = some y) (hbid : f.budgetId = none)
    (hfound : budget_findUnique db userId m y = some b) :
    (budgetsNew_action db newId userId f).1 = db ∧
    (budgets_action db newId userId f).1 = db ∧
    ((budgetsNew_validate f).1 = [] →
      (budgetsNew_action db newId userId f).2 = Outcome.fieldErrors
        [("amount",
          "Budget already exists for this month. Please edit the existing budget instead.")]) ∧
    (f.intent = "save-budget" → (budgetFormValidate f).1 = [] →
      (budgets_action db newId userId f).2 = Outcome.thrown DbError.uniqueViolation) ∧
    ((db.filter (fun r => r.userId == userId && r.month == m && r.year == y)).length = 1 →
      ((budgetsNew_action db newId userId f).1.filter
        (fun r => r.userId == userId && r.month == m && r.year == y)).length = 1 ∧
      ((budgets_action db newId userId f).1.filter
        (fun r => r.userId == userId && r.month == m && r.year == y)).length = 1) := by
  have hstate1 : (budgetsNew_action db newId userId f).1 = db := by
    by_cases hv : (budgetsNew_validate f).1 = []
    · have hveq : budgetsNew_validate f = ([], (budgetsNew_validate f).2) := by
        rw [← hv]
      rw [budgetsNew_action_conflict db newId userId f m y _ b hveq hm hy hfound]
    · rw [budgetsNew_action_invalid db newId userId f hv]
  have hstate2 : (budgets_action db newId userId f).1 = db := by
    by_cases hint : f.intent = "save-budget"
    · by_cases hv : (budgetFormValidate f).1 = []
      · have hveq : budgetFormValidate f = ([], (budgetFormValidate f).2) := by
          rw [← hv]
        rw [budgets_action_create_conflict db newId userId f m y _ b hint hveq hbid
          hm hy hfound]
      · rw [budgets_action_invalid db newId userId f hint hv]
    · unfold budgets_action
      rw [if_pos hint]
  refine ⟨hstate1, hstate2, ?_, ?_, ?_⟩
  · intro hv
    have hveq : budgetsNew_validate f = ([], (budgetsNew_validate f).2) := by
      rw [← hv]
    rw [budgetsNew_action_conflict db newId userId f m y _ b hveq hm hy hfound]
  · intro hint hv
    have hveq : budgetFormValidate f = ([], (budgetFormValidate f).2) := by
      rw [← hv]
    rw [budgets_action_create_conflict db newId userId f m y _ b hint hveq hbid
      hm hy hfound]
  · intro hone
    rw [hstate1, hstate2]
    exact ⟨hone, hone⟩

/-- Witness for C1: a concrete duplicate creation through budgets.new
yields the conflict field error and leaves the single row in place. -/
theorem c1_duplicate_budget_creation_witness :
    (budgetsNew_action [⟨5, 1, 3, 2025, some 100⟩] 9 1
        ⟨"save-budget", "amount", some 100, none, none, some 3, some 2025, none⟩).1 =
      [⟨5, 1, 3, 2025, some 100⟩] ∧
    (budgetsNew_action [⟨5, 1, 3, 2025, some 100⟩] 9 1
        ⟨"save-budget", "amount", some 100, none, none, some 3, some 2025, none⟩).2 =
      Outcome.fieldErrors
        [("amount",
          "Budget already exists for this month. Please edit the existing budget instead.")] := by
  have h := c1_duplicate_budget_creation [⟨5, 1, 3, 2025, some 100⟩] 9 1
      ⟨"save-budget", "amount", some 100, none, none, some 3, some 2025, none⟩ 3 2025
      ⟨5, 1, 3, 2025, some 100⟩ rfl rfl rfl
      (by simp [budget_findUnique])
  exact ⟨h.1, h.2.2.1 (by simp [budgetsNew_validate, budgetFormValidate]; norm_num)⟩

/-- Counterexample to C1 as stated: on the save-budget intent of the
unified budgets action, a second creation attempt for an existing
(user, month, year) surfaces as the thrown uniqueness-constraint
exception escaping to the caller, not as a recoverable user-visible
conflict error. -/
theorem c1_counterexample :
    budgets_action [⟨5, 1, 3, 2025, some 100⟩] 9 1
        ⟨"save-budget", "amount", some 100, none, none, some 3, some 2025, none⟩ =
      ([⟨5, 1, 3, 2025, some 100⟩], Outcome.thrown DbError.uniqueViolation) := by
  simp [budgets_action, budgetFormValidate, saveBudgetCreate, budget_create,
    budget_findUnique]
  norm_num

/-- C7 (amended): for the transaction edit/delete action and the
income delete action, a record id that does not exist or that belongs
to another user yields the identical generic not-found outcome in both
cases (the ownership filter cannot distinguish them) and no record is
modified.  The budget update path of the save-budget intent does not
share this property: it performs no ownership check (see the
counterexample). -/
theorem c7_generic_not_found (tdb : List Txn) (idb : List Income)
    (u tid iid : Nat) (tf : TxnForm)
    (ht : tdb.find? (fun t => t.id == tid && t.userId == u) = none)
    (hi : idb.find? (fun i => i.id == iid && i.userId == u) = none) :
    transactionsIdEdit_action tdb u tid tf =
      (tdb, Outcome.errorMsg "Transaction not found") ∧
    incomes_action idb u "delete" (some iid) =
      (idb, Outcome.errorMsg "Income not found") := by
  constructor
  · unfold transactionsIdEdit_action
    rw [ht]
  · unfold incomes_action
    dsimp only
    rw [if_pos rfl, hi]

/-- Witness for C7: a transaction owned by user 1 is generically not
found for user 2, and a nonexistent income id is generically not
found, with nothing modified. -/
theorem c7_generic_not_found_witness :
    transactionsIdEdit_action [⟨1, 1, 5, "Food & Dining", none, 0, false, none⟩] 2 1
        ⟨"delete", none, none, none, none, false, none⟩ =
      ([⟨1, 1, 5, "Food & Dining", none, 0, false, none⟩],
       Outcome.errorMsg "Transaction not found") ∧
    incomes_action [] 2 "delete" (some 3) = ([], Outcome.errorMsg "Income not found") :=
  c7_generic_not_found [⟨1, 1, 5, "Food & Dining", none, 0, false, none⟩] [] 2 1 3
    ⟨"delete", none, none, none, none, false, none⟩ (by simp) rfl

/-- Counterexample to C7 as stated: the budget update path of the
save-budget intent updates by id alone; user 2 updating budget 5,
which belongs to user 1, modifies the foreign row and reports success,
instead of returning a generic not-found with no modification. -/
theorem c7_counterexample :
    budgets_action [⟨5, 1, 3, 2025, some 100⟩] 9 2
        ⟨"save-budget", "amount", some 50, none, none, some 3, some 2025, some 5⟩ =
      ([⟨5, 1, 3, 2025, some 50⟩], Outcome.successMsg "Budget updated successfully") := by
  simp [budgets_action, budgetFormValidate, saveBudgetUpdate, budget_update]
  norm_num

end BudgetPlanner
